import Mathlib

/-!
Shallow embedding of the VAR-Capital repository (two Python source files:
`FinalBloombergCode.py` and `EventTradesAnalysis.py`) and proofs about the
claims of its specification.

Modelling conventions:
* Calendar dates are modelled as `ℤ` (day numbers); date arithmetic such as
  `(expected_close_date - today).days` becomes integer subtraction.
* Python/numpy floats are modelled as exact rationals `ℚ`; the two
  transcendental spots of the source (`np.log` in return transforms,
  `np.sqrt` inside standard deviations and the `* np.sqrt(252)` Sharpe
  annualisation) are modelled over `ℝ` with `Real.log` / `Real.sqrt`.
* numpy float division by zero does not raise in Python: it emits a
  RuntimeWarning and yields `inf`/`nan`, which then flows onward as an
  ordinary value.  In this exact-arithmetic embedding the corresponding
  division by zero yields the Lean junk value `0`.  Both are "silent junk
  that is not an error"; no theorem below depends on the numeric value of
  such a junk result, only on the fact that no error is signalled.
* Python exceptions are modelled with `Option`/`Except`: a `try/except`
  block that swallows an exception becomes an `Option` returning `none`,
  and uncaught exceptions (as in `EventTradesAnalysis.py`, which has no
  handler) become `Except.error` values that propagate.
* The Bloomberg market-data provider (`blpapi` sessions) is an external
  collaborator; both pipelines receive it as an explicit `fetch` function
  parameter covering its observable behaviour (data, empty data, failure).
-/

namespace VarCapital

/-! ### numpy-style list statistics (exact-arithmetic model)

`np.mean`, `np.std(, ddof=0)` and the biased covariance `np.cov(x, y,
bias=1)` used by `scipy.stats.linregress`.  Over the empty list the mean is
the junk value `0` (numpy would give `nan`); no proof relies on that case.
-/

def npMeanQ (xs : List ℚ) : ℚ := xs.sum / xs.length

def npVarQ (xs : List ℚ) : ℚ := npMeanQ (xs.map (fun x => (x - npMeanQ xs) ^ 2))

def npCovQ (x y : List ℚ) : ℚ :=
  npMeanQ (List.zipWith (fun a b => (a - npMeanQ x) * (b - npMeanQ y)) x y)

/-- `np.amax(x) == np.amin(x)` for a nonempty list: all entries equal. -/
def allSameQ : List ℚ → Bool
  | [] => true
  | x :: rest => rest.all (fun y => y == x)

/-- `scipy.stats.linregress(x, y)` restricted to the `(slope, intercept)`
components the repository uses.  scipy raises `ValueError` on empty input,
on shape mismatch, and on all-identical `x` when `len(x) > 1`; with a
single observation it does not raise: the slope is the float junk `0/0`
(numpy `nan`, Lean junk `0`) and flows onward silently.  `none` models a
raised `ValueError`. -/
def linregressQ (x y : List ℚ) : Option (ℚ × ℚ) :=
  if x.length = 0 ∨ y.length = 0 then none
  else if x.length ≠ y.length then none
  else if 1 < x.length ∧ allSameQ x then none
  else
    let slope := npCovQ x y / npVarQ x
    some (slope, npMeanQ y - slope * npMeanQ x)

/-! ### `FinalBloombergCode.py` -/

/-- A fetched price frame: chronologically ordered `(date, Adj Close)`
rows, the observable result of `fetch_bloomberg_data`. -/
abbrev PriceFrame := List (ℤ × ℚ)

/-- The observable behaviour of `fetch_bloomberg_data`: `none` models the
`except`-path of the source (any provider failure makes it return
`None`), `some frame` a returned dataframe, possibly empty. -/
abbrev FBFetch := String → ℤ → ℤ → Option PriceFrame

/-- `Series.pct_change().dropna()`: consecutive-pair simple returns,
indexed by the later date of each pair. -/
def pctChange (s : PriceFrame) : PriceFrame :=
  List.zipWith (fun p q => (q.1, (q.2 - p.2) / p.2)) s s.tail

def datesOf (s : PriceFrame) : List ℤ := s.map Prod.fst

/-- Dates common to two date lists (for chronologically sorted duplicate-free
inputs this is the date intersection, in order). -/
def commonDates (a b : List ℤ) : List ℤ := a.filter (fun d => d ∈ b)

/-- `pd.concat([stock_returns, market_returns], axis=1).dropna()`: the inner
join of two date-indexed series.  For chronologically sorted duplicate-free
indexes (the provider invariant) this matches pandas exactly. -/
def innerJoin (s m : PriceFrame) : List (ℤ × ℚ × ℚ) :=
  s.filterMap (fun p => (List.lookup p.1 m).map (fun v => (p.1, p.2, v)))

/-- The aligned rows of `calculate_metrics`: inner join of the two
`pct_change` return series. -/
def alignedRows (stock market : PriceFrame) : List (ℤ × ℚ × ℚ) :=
  innerJoin (pctChange stock) (pctChange market)

/-- `returns_data.iloc[:, 0]`: the aligned stock returns. -/
def alignedStockReturns (stock market : PriceFrame) : List ℚ :=
  (alignedRows stock market).map (fun r => r.2.1)

/-- `returns_data.iloc[:, 1]`: the aligned market returns. -/
def alignedMarketReturns (stock market : PriceFrame) : List ℚ :=
  (alignedRows stock market).map (fun r => r.2.2)

/-- `excess_returns = stock_returns - 0.03 / 252`. -/
def excessReturnsFB (stock market : PriceFrame) : List ℚ :=
  (alignedStockReturns stock market).map (fun r => r - 3 / 100 / 252)

/-- `sharpe_ratio = np.mean(excess_returns) / np.std(excess_returns) *
np.sqrt(252)`.  When `np.std(excess_returns)` is zero numpy yields a silent
`inf`/`nan` (modelled by the Lean junk value of division by zero); no error
path exists in the source. -/
noncomputable def sharpeRatioFB (stock market : PriceFrame) : ℝ :=
  ((npMeanQ (excessReturnsFB stock market) : ℝ) /
    Real.sqrt ((npVarQ (excessReturnsFB stock market) : ℝ))) * Real.sqrt 252

/-- `calculate_metrics(stock_data, market_data)`.  Returns
`(alpha, beta, sharpe_ratio)`; `none` models the `(None, None, None)`
return of both the explicit empty-overlap check and the `except` handler
that catches a `ValueError` raised by `stats.linregress`. -/
noncomputable def calculate_metrics (stock market : PriceFrame) :
    Option (ℚ × ℚ × ℝ) :=
  if alignedRows stock market = [] then none
  else
    match linregressQ (alignedMarketReturns stock market)
        (alignedStockReturns stock market) with
    | none => none
    | some si => some (si.2, si.1, sharpeRatioFB stock market)

/-- One spreadsheet row of `data.xlsx`: ticker, `Purchase Date`,
`Sale Date`; `pd.to_datetime(..., errors='coerce')` turns unparseable
cells into `NaT`, modelled as `none`. -/
abbrev FBRequest := String × Option ℤ × Option ℤ

/-- The module-level mutable state of `FinalBloombergCode.py`: the running
portfolio accumulators, the per-stock results list, and the
`error_tickers.txt` log of `(ticker, reason)` entries. -/
structure BatchState where
  portfolioAlpha : ℚ
  portfolioBeta : ℚ
  portfolioSharpe : ℝ
  numProcessed : ℕ
  results : List (String × ℚ × ℚ × ℝ)
  errors : List (String × String)

/-- The initial module-level state (`0.0` accumulators, empty collections). -/
noncomputable def initialBatchState : BatchState :=
  ⟨0, 0, 0, 0, [], []⟩

/-- One iteration of the module-level `for ticker, purchase_date, sell_date
in zip(...)` loop of `FinalBloombergCode.py`: validate the purchase date,
default a blank sell date to today, fetch stock then market data, compute
metrics, and either accumulate a success or append one error-log entry. -/
noncomputable def processPosition (fetch : FBFetch) (today : ℤ)
    (st : BatchState) (req : FBRequest) : BatchState :=
  match req with
  | (ticker, none, _) =>
    { st with errors := st.errors ++ [(ticker, "Invalid purchase date format.")] }
  | (ticker, some purchase, sellOpt) =>
    let sell := sellOpt.getD today
    match fetch ticker purchase sell with
    | none =>
      { st with errors := st.errors ++ [(ticker, "Error fetching stock data.")] }
    | some stockData =>
      if stockData = [] then
        { st with errors := st.errors ++ [(ticker, "Error fetching stock data.")] }
      else
        match fetch "UKX Index" purchase sell with
        | none =>
          { st with errors := st.errors ++ [(ticker, "Error fetching market data.")] }
        | some marketData =>
          if marketData = [] then
            { st with errors := st.errors ++ [(ticker, "Error fetching market data.")] }
          else
            match calculate_metrics stockData marketData with
            | none =>
              { st with errors := st.errors ++ [(ticker, "Error calculating metrics.")] }
            | some (alpha, beta, sharpe) =>
              { st with
                portfolioAlpha := st.portfolioAlpha + alpha
                portfolioBeta := st.portfolioBeta + beta
                portfolioSharpe := st.portfolioSharpe + sharpe
                numProcessed := st.numProcessed + 1
                results := st.results ++ [(ticker, alpha, beta, sharpe)] }

/-- The whole batch loop over the spreadsheet rows, in input order. -/
noncomputable def runBatch (fetch : FBFetch) (today : ℤ)
    (reqs : List FBRequest) : BatchState :=
  reqs.foldl (processPosition fetch today) initialBatchState

/-- The portfolio-level numbers the source prints after the loop: the
accumulators are divided by `num_stocks_processed` only when that count is
positive, and are then printed unconditionally. -/
noncomputable def portfolioReport (st : BatchState) : ℚ × ℚ × ℝ :=
  if 0 < st.numProcessed then
    (st.portfolioAlpha / st.numProcessed, st.portfolioBeta / st.numProcessed,
      st.portfolioSharpe / (st.numProcessed : ℝ))
  else
    (st.portfolioAlpha, st.portfolioBeta, st.portfolioSharpe)

/-! ### `EventTradesAnalysis.py` -/

/-- The Python exception classes that can propagate out of the
`EventTradesAnalysis.py` call chain (which contains no `try/except`). -/
inductive PyErr where
  | keyError
  | valueError
  | zeroDivisionError
  | indexError
  deriving DecidableEq

/-- The observable behaviour of `get_bloomberg_data(tickers, fields, start,
end)`: either a raised exception (failed session/service) or a dict from
ticker to its date-to-price dict (chronological insertion order). -/
abbrev ETFetch := List String → ℤ → ℤ → Except PyErr (List (String × PriceFrame))

/-- `np.diff`: consecutive differences. -/
def npDiff (xs : List ℝ) : List ℝ := List.zipWith (fun a b => b - a) xs xs.tail

/-- `np.diff(np.log(prices))`: log returns. -/
noncomputable def logReturns (ps : List ℚ) : List ℝ :=
  npDiff (ps.map (fun p => Real.log (p : ℝ)))

/-- Modelled from the spec (for the transform comparison of the claims):
the simple-return transform `return[i] = price[i]/price[i-1] - 1`. -/
def simpleReturnsSpec (ps : List ℚ) : List ℚ :=
  List.zipWith (fun prev cur => cur / prev - 1) ps ps.tail

/-- Modelled from the spec (for the transform comparison of the claims):
the log-return transform `return[i] = ln(price[i]/price[i-1])`. -/
noncomputable def logReturnsSpec (ps : List ℚ) : List ℝ :=
  List.zipWith (fun prev cur => Real.log ((cur / prev : ℚ) : ℝ)) ps ps.tail

noncomputable def npMeanR (xs : List ℝ) : ℝ := xs.sum / xs.length

noncomputable def npVarR (xs : List ℝ) : ℝ :=
  npMeanR (xs.map (fun x => (x - npMeanR xs) ^ 2))

noncomputable def npCovR (x y : List ℝ) : ℝ :=
  npMeanR (List.zipWith (fun a b => (a - npMeanR x) * (b - npMeanR y)) x y)

/-- `np.std(xs)` (ddof = 0). -/
noncomputable def npStdR (xs : List ℝ) : ℝ := Real.sqrt (npVarR xs)

/-- All entries of the list equal (the `np.amax(x) == np.amin(x)` test). -/
def allSameR (xs : List ℝ) : Prop := ∀ a ∈ xs, ∀ b ∈ xs, a = b

open Classical in
/-- `scipy.stats.linregress` over the real-valued log returns, with the
same raise conditions as `linregressQ`; here a raised `ValueError`
propagates (no handler anywhere in `EventTradesAnalysis.py`). -/
noncomputable def linregressR (x y : List ℝ) : Except PyErr (ℝ × ℝ) :=
  if x.length = 0 ∨ y.length = 0 then .error .valueError
  else if x.length ≠ y.length then .error .valueError
  else if 1 < x.length ∧ allSameR x then .error .valueError
  else
    let slope := npCovR x y / npVarR x
    .ok (slope, npMeanR y - slope * npMeanR x)

/-- `calculate_alpha_beta_sharpe(stock_prices, market_prices,
risk_free_rate)`: log returns for both series, regression of stock on
market (`beta, alpha, *_ = linregress(market_returns, stock_returns)`),
and `sharpe_ratio = np.mean(excess_return) / np.std(stock_returns)` where
`excess_return = stock_returns - risk_free_rate / 252`. -/
noncomputable def calculate_alpha_beta_sharpe (stock_prices market_prices : List ℚ)
    (risk_free_rate : ℚ) : Except PyErr (ℝ × ℝ × ℝ) := do
  let stock_returns := logReturns stock_prices
  let market_returns := logReturns market_prices
  let res ← linregressR market_returns stock_returns
  let beta := res.1
  let alpha := res.2
  let excess_return := stock_returns.map (fun r => r - (risk_free_rate : ℝ) / 252)
  .ok (alpha, beta, npMeanR excess_return / npStdR stock_returns)

/-- `arbitrage_spread = (deal_price - current_target_price) / deal_price * 100`. -/
def arbitrageSpread (deal_price current_target_price : ℚ) : ℚ :=
  (deal_price - current_target_price) / deal_price * 100

/-- `annualized_return = (arbitrage_spread / days_to_close) * 365 if
arbitrage_spread > 0 else None`.  When `arbitrage_spread > 0` and
`days_to_close == 0` Python raises an uncaught `ZeroDivisionError`; a
negative `days_to_close` silently produces a negative value. -/
def annualizedReturnCalc (arbitrage_spread : ℚ) (days_to_close : ℤ) :
    Except PyErr (Option ℚ) :=
  if 0 < arbitrage_spread then
    if days_to_close = 0 then .error .zeroDivisionError
    else .ok (some (arbitrage_spread / (days_to_close : ℚ) * 365))
  else .ok none

/-- `start_date = datetime.date.today() - datetime.timedelta(days=365)`:
the start of the fixed trailing window both fetches of
`merger_arbitrage_analysis_bloomberg` use. -/
def etFetchStart (today : ℤ) : ℤ := today - 365

/-- `end_date = datetime.date.today()`: the end of that fixed window. -/
def etFetchEnd (today : ℤ) : ℤ := today

/-- The result dict of `merger_arbitrage_analysis_bloomberg`. -/
structure ETResult where
  target : String
  currentTargetPrice : ℚ
  dealPrice : ℚ
  arbitrageSpreadPct : ℚ
  annualizedReturnPct : Option ℚ
  alpha : ℝ
  beta : ℝ
  sharpeRatio : ℝ

/-- `merger_arbitrage_analysis_bloomberg(target_ticker, deal_price,
expected_close_date, market_ticker)`: fetch one year of history ending
today for target and market, compute alpha/beta/Sharpe, then the spread
analysis.  Every failure propagates as an exception. -/
noncomputable def merger_arbitrage_analysis_bloomberg (fetch : ETFetch)
    (today : ℤ) (target_ticker : String) (deal_price : ℚ)
    (expected_close_date : ℤ) (market_ticker : String) :
    Except PyErr ETResult := do
  let stock_data ← fetch [target_ticker] (etFetchStart today) (etFetchEnd today)
  let market_data ← fetch [market_ticker] (etFetchStart today) (etFetchEnd today)
  let stock_prices ← match List.lookup target_ticker stock_data with
    | none => Except.error PyErr.keyError
    | some frame => Except.ok (frame.map Prod.snd)
  let market_prices ← match List.lookup market_ticker market_data with
    | none => Except.error PyErr.keyError
    | some frame => Except.ok (frame.map Prod.snd)
  let abs ← calculate_alpha_beta_sharpe stock_prices market_prices (3 / 100)
  let current_target_price ← match stock_prices.getLast? with
    | none => Except.error PyErr.indexError
    | some c => Except.ok c
  let spread := arbitrageSpread deal_price current_target_price
  let days_to_close := expected_close_date - today
  let annualized_return ← annualizedReturnCalc spread days_to_close
  .ok ⟨target_ticker, current_target_price, deal_price, spread,
    annualized_return, abs.1, abs.2.1, abs.2.2⟩

/-- One row of `event_data.xlsx` as consumed by the loop: `Ticker`,
`Deal Price`, `Sell Date` (the expected close date).  The `Buy Date`
column is required to exist but never read by the loop body. -/
abbrev ETRow := String × ℚ × ℤ

/-- The `for index, row in stock_data.iterrows()` loop of
`merger_arbitrage_from_excel`: each row is analysed in order and appended
to `results`.  There is no `try/except` around the body, so the first
exception aborts the whole loop and propagates. -/
noncomputable def merger_arbitrage_from_excel (fetch : ETFetch) (today : ℤ)
    (market_ticker : String) (rows : List ETRow) :
    Except PyErr (List ETResult) :=
  rows.mapM (fun row =>
    merger_arbitrage_analysis_bloomberg fetch today row.1 row.2.1 row.2.2
      market_ticker)

/-! ### Witness and counterexample data -/

/-- A provider stub that fails every fetch. -/
def fetchNothing : FBFetch := fun _ _ _ => none

/-- Stock data for the successful positions of the isolation scenario. -/
def dataA : PriceFrame := [(0, 1), (1, 2)]

/-- Market data for the isolation scenario. -/
def dataM : PriceFrame := [(0, 1), (1, 3)]

/-- Stock data for the second successful position of the scenario. -/
def dataC : PriceFrame := [(0, 1), (1, 4)]

/-- Provider stub for the isolation scenario: data for tickers `AAA`/`CCC`
and the market index, a failed fetch for ticker `BBB`. -/
def fetchC1 : FBFetch := fun t _ _ =>
  if t = "AAA US Equity" then some dataA
  else if t = "CCC US Equity" then some dataC
  else if t = "UKX Index" then some dataM
  else none

/-- The metric triple the pipeline computes for `dataA` against `dataM`. -/
noncomputable def resA : ℚ × ℚ × ℝ := (calculate_metrics dataA dataM).getD (0, 0, 0)

/-- The metric triple the pipeline computes for `dataC` against `dataM`. -/
noncomputable def resC : ℚ × ℚ × ℝ := (calculate_metrics dataC dataM).getD (0, 0, 0)

/-- Two price series sharing exactly one common date (date 2). -/
def sOneCommon : PriceFrame := [(1, 1), (2, 2)]

/-- Counterpart of `sOneCommon`: dates 0 and 2, so only date 2 is shared. -/
def mOneCommon : PriceFrame := [(0, 1), (2, 3)]

/-- A constant (flat) stock price series: all returns are zero, so the
standard deviation of the excess returns is zero. -/
def sFlat : PriceFrame := [(0, 100), (1, 100), (2, 100), (3, 100)]

/-- A non-constant market series aligned with `sFlat`. -/
def mVaried : PriceFrame := [(0, 100), (1, 101), (2, 103), (3, 106)]

/-- Provider stub serving `sFlat` for the subject and `mVaried` for the
market index. -/
def fetchFlat : FBFetch := fun t _ _ =>
  if t = "CONST US Equity" then some sFlat
  else if t = "UKX Index" then some mVaried
  else none

/-- Three-point series over dates 1, 3, 5. -/
def sSparse : PriceFrame := [(1, 10), (3, 11), (5, 12)]

/-- Three-point series over dates 2, 3, 5: shares dates 3 and 5 with
`sSparse`, and both shared dates survive into the aligned returns. -/
def mSparse : PriceFrame := [(2, 10), (3, 12), (5, 9)]

/-- Three-point series over dates 0, 1, 2 (for the aligned-length witness). -/
def sDense : PriceFrame := [(0, 10), (1, 11), (2, 13)]

/-- Series over the same dates 0, 1, 2 as `sDense`. -/
def mDense : PriceFrame := [(0, 20), (1, 19), (2, 23)]

/-- Event-analysis provider stub that raises on every fetch. -/
def etFetchFail : ETFetch := fun tks _ _ =>
  if tks = ["T1 US Equity"] then .error .valueError else .error .keyError

/-- Three spreadsheet rows for the event-analysis batch. -/
def etRowsThree : List ETRow :=
  [("T1 US Equity", 100, 990), ("T2 US Equity", 100, 990), ("T3 US Equity", 100, 990)]

/-- Event-analysis provider stub raising `KeyError` on every call. -/
def etFetchKey : ETFetch := fun _ _ _ => .error .keyError

/-- Event-analysis provider stub that agrees with `etFetchKey` exactly on
calls whose start date is 900 (the event window of the counterexample row)
and raises a different exception everywhere else. -/
def etFetchVal : ETFetch := fun _ s _ =>
  if s = 900 then .error .keyError else .error .valueError

/-- Event-analysis provider stub that agrees with `etFetchKey` exactly on
calls whose start date is 635 (the fixed trailing window actually used
when today is day 1000) and raises a different exception elsewhere. -/
def etFetchKeyB : ETFetch := fun _ s _ =>
  if s = 635 then .error .keyError else .error .indexError

/-- A three-point strictly positive price series for the transform
witness. -/
def wData : PriceFrame := [(0, 1), (1, 2), (2, 4)]

/-- FB provider stub that is empty everywhere. -/
def fbFetchNoneA : FBFetch := fun _ _ _ => none

/-- FB provider stub that agrees with `fbFetchNoneA` except on end date
999999 (never requested in the witness scenario). -/
def fbFetchNoneB : FBFetch := fun _ _ e =>
  if e = 999999 then some [(0, 1)] else none

/-! ### Helper lemmas -/

theorem some_getD_of_isSome {α : Type _} (o : Option α) (d : α)
    (h : o.isSome = true) : o = some (o.getD d) := by
  cases o <;> simp_all

theorem lookup_isSome_iff_mem {β : Type _} (d : ℤ) (m : List (ℤ × β)) :
    (List.lookup d m).isSome = true ↔ d ∈ m.map Prod.fst := by
  induction m with
  | nil => simp [List.lookup]
  | cons p t ih =>
    rcases p with ⟨k, v⟩
    by_cases h : d = k
    · subst h; simp [List.lookup]
    · have hb : (d == k) = false := beq_eq_false_iff_ne.mpr h
      simp [List.lookup, hb, ih, h]

theorem mem_keys_of_lookup_some {β : Type _} {d : ℤ} {m : List (ℤ × β)}
    {v : β} (h : List.lookup d m = some v) : d ∈ m.map Prod.fst :=
  (lookup_isSome_iff_mem d m).mp (by rw [h]; rfl)

/-- The dates of the `pct_change` series are among the dates of the price
series. -/
theorem datesOf_pctChange (s : PriceFrame) :
    datesOf (pctChange s) = (datesOf s).tail := by
  induction s with
  | nil => rfl
  | cons a t ih =>
    cases t with
    | nil => rfl
    | cons b u =>
      simp only [pctChange, List.tail_cons, List.zipWith_cons_cons, datesOf,
        List.map_cons] at ih ⊢
      exact congrArg _ ih

theorem mem_datesOf_of_mem_pctChange_dates (s : PriceFrame) {d : ℤ}
    (h : d ∈ datesOf (pctChange s)) : d ∈ datesOf s := by
  rw [datesOf_pctChange] at h
  exact List.mem_of_mem_tail h

/-- The aligned rows counted through the per-date inner join: the length
is the number of `pct_change` dates of the subject that also occur among
the `pct_change` dates of the market. -/
theorem innerJoin_length (a b : PriceFrame) :
    (innerJoin a b).length = (commonDates (datesOf a) (datesOf b)).length := by
  induction a with
  | nil => rfl
  | cons p t ih =>
    by_cases h : p.1 ∈ List.map Prod.fst b
    · obtain ⟨v, hv⟩ := Option.isSome_iff_exists.mp
        ((lookup_isSome_iff_mem p.1 b).mpr h)
      simp [innerJoin, commonDates, datesOf, List.filterMap_cons,
        List.filter_cons, hv, h] at ih ⊢
      omega
    · have hv : List.lookup p.1 b = none := by
        cases hl : List.lookup p.1 b with
        | none => rfl
        | some v => exact absurd (mem_keys_of_lookup_some hl) h
      simp [innerJoin, commonDates, datesOf, List.filterMap_cons,
        List.filter_cons, hv, h] at ih ⊢
      exact ih

/-- If some aligned row exists, the two price series share a date. -/
theorem commonDates_ne_nil_of_alignedRows {s m : PriceFrame}
    (h : alignedRows s m ≠ []) :
    commonDates (datesOf s) (datesOf m) ≠ [] := by
  rcases List.exists_mem_of_ne_nil _ h with ⟨row, hrow⟩
  rcases List.mem_filterMap.mp hrow with ⟨p, hp, heq⟩
  rcases Option.map_eq_some'.mp heq with ⟨v, hv, _⟩
  have hds : p.1 ∈ datesOf s :=
    mem_datesOf_of_mem_pctChange_dates s (List.mem_map_of_mem Prod.fst hp)
  have hdm : p.1 ∈ datesOf m :=
    mem_datesOf_of_mem_pctChange_dates m (mem_keys_of_lookup_some hv)
  intro hnil
  have : p.1 ∈ commonDates (datesOf s) (datesOf m) := by
    simpa [commonDates, hdm] using hds
  rw [hnil] at this
  exact List.not_mem_nil _ this

/-- The invariant tying the module-level accumulators of
`FinalBloombergCode.py` to the rows already appended to `results`. -/
def accumInvariant (st : BatchState) : Prop :=
  st.numProcessed = st.results.length ∧
  st.portfolioAlpha = (st.results.map (fun r => r.2.1)).sum ∧
  st.portfolioBeta = (st.results.map (fun r => r.2.2.1)).sum ∧
  st.portfolioSharpe = (st.results.map (fun r => r.2.2.2)).sum

/-- Each loop iteration either appends exactly one error-log entry,
leaving accumulators and results untouched, or appends exactly one result
row and folds its three metrics into the accumulators. -/
theorem processPosition_cases (fetch : FBFetch) (today : ℤ) (st : BatchState)
    (req : FBRequest) :
    (∃ reason, processPosition fetch today st req =
      { st with errors := st.errors ++ [(req.1, reason)] }) ∨
    (∃ a b s, processPosition fetch today st req =
      { st with
        portfolioAlpha := st.portfolioAlpha + a
        portfolioBeta := st.portfolioBeta + b
        portfolioSharpe := st.portfolioSharpe + s
        numProcessed := st.numProcessed + 1
        results := st.results ++ [(req.1, a, b, s)] }) := by
  rcases req with ⟨ticker, pOpt, sOpt⟩
  cases pOpt with
  | none => exact Or.inl ⟨_, rfl⟩
  | some purchase =>
    simp only [processPosition]
    repeat' split
    all_goals first
      | exact Or.inl ⟨_, rfl⟩
      | exact Or.inr ⟨_, _, _, rfl⟩

theorem accumInvariant_processPosition (fetch : FBFetch) (today : ℤ)
    (st : BatchState) (req : FBRequest) (h : accumInvariant st) :
    accumInvariant (processPosition fetch today st req) := by
  obtain ⟨h1, h2, h3, h4⟩ := h
  rcases processPosition_cases fetch today st req with ⟨r, hr⟩ | ⟨a, b, s, hr⟩ <;>
    rw [hr] <;>
    refine ⟨?_, ?_, ?_, ?_⟩ <;>
    simp [h1, h2, h3, h4]

theorem accumInvariant_foldl (fetch : FBFetch) (today : ℤ)
    (reqs : List FBRequest) (st : BatchState) (h : accumInvariant st) :
    accumInvariant (reqs.foldl (processPosition fetch today) st) := by
  induction reqs generalizing st with
  | nil => exact h
  | cons r t ih =>
    exact ih _ (accumInvariant_processPosition fetch today st r h)

theorem accumInvariant_runBatch (fetch : FBFetch) (today : ℤ)
    (reqs : List FBRequest) : accumInvariant (runBatch fetch today reqs) :=
  accumInvariant_foldl fetch today reqs initialBatchState
    ⟨rfl, rfl, rfl, rfl⟩

/-! ### Claim C10 -/

/-- Claim C10: throughout the batch run of `FinalBloombergCode.py`, after
each request the success counter equals the number of appended result
rows, and each accumulated portfolio total (alpha, beta, Sharpe) equals
the sum of the corresponding field over exactly those rows (the first
conjunct, instantiable at every prefix of the request list since every
prefix run is itself a `runBatch`); and each single iteration either
routes the request to the error log, changing neither the counter, the
totals, nor the result rows, or appends exactly one result row and folds
its metrics into the totals (the second conjunct). -/
theorem c10_accumulator_invariant (fetch : FBFetch) (today : ℤ)
    (reqs : List FBRequest) (st : BatchState) (req : FBRequest) :
    ((runBatch fetch today reqs).numProcessed
        = (runBatch fetch today reqs).results.length ∧
      (runBatch fetch today reqs).portfolioAlpha
        = ((runBatch fetch today reqs).results.map (fun r => r.2.1)).sum ∧
      (runBatch fetch today reqs).portfolioBeta
        = ((runBatch fetch today reqs).results.map (fun r => r.2.2.1)).sum ∧
      (runBatch fetch today reqs).portfolioSharpe
        = ((runBatch fetch today reqs).results.map (fun r => r.2.2.2)).sum) ∧
    ((∃ reason, processPosition fetch today st req =
        { st with errors := st.errors ++ [(req.1, reason)] }) ∨
      (∃ a b s, processPosition fetch today st req =
        { st with
          portfolioAlpha := st.portfolioAlpha + a
          portfolioBeta := st.portfolioBeta + b
          portfolioSharpe := st.portfolioSharpe + s
          numProcessed := st.numProcessed + 1
          results := st.results ++ [(req.1, a, b, s)] })) :=
  ⟨accumInvariant_runBatch fetch today reqs,
    processPosition_cases fetch today st req⟩

/-! ### Claim C2 -/

/-- Claim C2 (amended): at batch finalization, if the count of
successfully processed positions is positive, the reported portfolio
alpha, beta and Sharpe are exactly the accumulated sums divided by that
count; if the count is zero, the source skips the division but still
prints the accumulators, so the portfolio metrics are reported as the
initial zeros rather than being absent. -/
theorem c2_portfolio_finalization (fetch : FBFetch) (today : ℤ)
    (reqs : List FBRequest) :
    (0 < (runBatch fetch today reqs).numProcessed →
      portfolioReport (runBatch fetch today reqs) =
        ((runBatch fetch today reqs).portfolioAlpha
            / ((runBatch fetch today reqs).numProcessed : ℚ),
          (runBatch fetch today reqs).portfolioBeta
            / ((runBatch fetch today reqs).numProcessed : ℚ),
          (runBatch fetch today reqs).portfolioSharpe
            / ((runBatch fetch today reqs).numProcessed : ℝ))) ∧
    ((runBatch fetch today reqs).numProcessed = 0 →
      portfolioReport (runBatch fetch today reqs) = (0, 0, (0 : ℝ))) := by
  constructor
  · intro h
    rw [portfolioReport, if_pos h]
  · intro h
    obtain ⟨h1, h2, h3, h4⟩ := accumInvariant_runBatch fetch today reqs
    have hres : (runBatch fetch today reqs).results = [] := by
      rw [h] at h1
      exact List.eq_nil_of_length_eq_zero h1.symm
    rw [portfolioReport, if_neg (by omega), h2, h3, h4, hres]
    simp

/-- Claim C2, counterexample to the claim as stated: a batch in which no
position succeeds (here: the single row has an unparseable purchase date)
ends with a success count of zero, yet the portfolio metrics are still
reported — as the zeros left in the accumulators — rather than being
absent or undefined. -/
theorem c2_zero_count_counterexample :
    (runBatch fetchNothing 0 [("AAPL US Equity", none, none)]).numProcessed = 0 ∧
    portfolioReport (runBatch fetchNothing 0 [("AAPL US Equity", none, none)])
      = (0, 0, (0 : ℝ)) :=
  ⟨rfl, rfl⟩

/-- Witness for `c2_portfolio_finalization`: a concrete run with zero
successes (fetch fails for the single row), whose report the theorem
evaluates to the zero triple. -/
theorem c2_portfolio_finalization_witness :
    (runBatch fetchNothing 7 [("MSFT US Equity", some 1, none)]).numProcessed = 0 ∧
    portfolioReport (runBatch fetchNothing 7 [("MSFT US Equity", some 1, none)])
      = (0, 0, (0 : ℝ)) :=
  ⟨rfl,
    (c2_portfolio_finalization fetchNothing 7
      [("MSFT US Equity", some 1, none)]).2 rfl⟩

/-! ### Claim C1 -/

/-- The metrics the pipeline computes for `dataA` against `dataM` exist. -/
theorem cmA_isSome : (calculate_metrics dataA dataM).isSome = true := by
  simp [calculate_metrics, alignedRows, innerJoin, pctChange, dataA, dataM,
    List.lookup, linregressQ, alignedMarketReturns, alignedStockReturns]

/-- The metrics the pipeline computes for `dataC` against `dataM` exist. -/
theorem cmC_isSome : (calculate_metrics dataC dataM).isSome = true := by
  simp [calculate_metrics, alignedRows, innerJoin, pctChange, dataC, dataM,
    List.lookup, linregressQ, alignedMarketReturns, alignedStockReturns]

theorem cmA_eq : calculate_metrics dataA dataM = some resA :=
  some_getD_of_isSome _ _ cmA_isSome

theorem cmC_eq : calculate_metrics dataC dataM = some resC :=
  some_getD_of_isSome _ _ cmC_isSome

/-- Claim C1 (amended): in the batch loop of `FinalBloombergCode.py`, a
failure while processing one request never aborts the batch: the failing
request is recorded as one (ticker, reason) error entry and processing
continues, so with 3 positions where only position 2's fetch fails the
run yields exactly the results of positions 1 and 3 in original order and
exactly 1 error entry for position 2.  (The excel loop of
`EventTradesAnalysis.py`, by contrast, propagates the failure and aborts:
see the counterexample.) -/
theorem c1_batch_isolation (fetch : FBFetch) (today : ℤ)
    (t1 t2 t3 : String) (p1 p2 p3 : ℤ) (s1 s2 s3 : Option ℤ)
    (d1 dm1 d3 dm3 : PriceFrame) (r1 r3 : ℚ × ℚ × ℝ)
    (hf1 : fetch t1 p1 (s1.getD today) = some d1) (hne1 : d1 ≠ [])
    (hm1 : fetch "UKX Index" p1 (s1.getD today) = some dm1) (hmne1 : dm1 ≠ [])
    (hc1 : calculate_metrics d1 dm1 = some r1)
    (hf2 : fetch t2 p2 (s2.getD today) = none)
    (hf3 : fetch t3 p3 (s3.getD today) = some d3) (hne3 : d3 ≠ [])
    (hm3 : fetch "UKX Index" p3 (s3.getD today) = some dm3) (hmne3 : dm3 ≠ [])
    (hc3 : calculate_metrics d3 dm3 = some r3) :
    (runBatch fetch today
        [(t1, some p1, s1), (t2, some p2, s2), (t3, some p3, s3)]).results
      = [(t1, r1.1, r1.2.1, r1.2.2), (t3, r3.1, r3.2.1, r3.2.2)] ∧
    (runBatch fetch today
        [(t1, some p1, s1), (t2, some p2, s2), (t3, some p3, s3)]).errors
      = [(t2, "Error fetching stock data.")] ∧
    (runBatch fetch today
        [(t1, some p1, s1), (t2, some p2, s2), (t3, some p3, s3)]).numProcessed
      = 2 := by
  simp [runBatch, processPosition, initialBatchState, hf1, hm1, hc1, hf2,
    hf3, hm3, hc3, hne1, hmne1, hne3, hmne3]

/-- Claim C1, counterexample to the claim as stated: in
`merger_arbitrage_from_excel` of `EventTradesAnalysis.py` there is no
per-row error handling, so a provider failure while processing one of the
three rows (here the very first) aborts the whole batch with the raised
exception: the run produces no result rows and no (ticker, reason) error
entry at all, instead of recording the failing row and continuing. -/
theorem c1_excel_abort_counterexample :
    merger_arbitrage_from_excel etFetchFail 1000 "SPX Index" etRowsThree
      = .error .valueError :=
  rfl

/-- Witness for `c1_batch_isolation`: the concrete three-position scenario
(fetch of `BBB US Equity` fails, the other two succeed). -/
theorem c1_batch_isolation_witness :
    (runBatch fetchC1 0
        [("AAA US Equity", some 0, some 1), ("BBB US Equity", some 0, some 1),
          ("CCC US Equity", some 0, some 1)]).results
      = [("AAA US Equity", resA.1, resA.2.1, resA.2.2),
          ("CCC US Equity", resC.1, resC.2.1, resC.2.2)] ∧
    (runBatch fetchC1 0
        [("AAA US Equity", some 0, some 1), ("BBB US Equity", some 0, some 1),
          ("CCC US Equity", some 0, some 1)]).errors
      = [("BBB US Equity", "Error fetching stock data.")] ∧
    (runBatch fetchC1 0
        [("AAA US Equity", some 0, some 1), ("BBB US Equity", some 0, some 1),
          ("CCC US Equity", some 0, some 1)]).numProcessed = 2 :=
  c1_batch_isolation fetchC1 0 "AAA US Equity" "BBB US Equity" "CCC US Equity"
    0 0 0 (some 1) (some 1) (some 1) dataA dataM dataC dataM resA resC
    rfl (by simp [dataA]) rfl (by simp [dataM]) cmA_eq rfl
    rfl (by simp [dataC]) rfl (by simp [dataM]) cmC_eq

/-! ### Claim C5 -/

/-- Claim C5 (amended): `calculate_metrics` fails — returning the
`(None, None, None)` triple that the batch routes to the error log —
whenever the aligned return intersection is empty; in particular whenever
the two price series share no common date, and whenever either input
series is empty.  (With exactly one overlapping return observation,
however, the regression proceeds and silently produces junk — numpy
`nan` — and the position is treated as a success: see the
counterexample, so the failure boundary is an empty intersection, not
"fewer than 2 points".) -/
theorem c5_insufficient_data (s m : PriceFrame) :
    (alignedRows s m = [] → calculate_metrics s m = none) ∧
    (commonDates (datesOf s) (datesOf m) = [] → calculate_metrics s m = none) ∧
    (s = [] → calculate_metrics s m = none) ∧
    (m = [] → calculate_metrics s m = none) := by
  have hbase : alignedRows s m = [] → calculate_metrics s m = none := by
    intro hrows
    simp [calculate_metrics, hrows]
  refine ⟨hbase, ?_, ?_, ?_⟩
  · intro h
    by_cases hrows : alignedRows s m = []
    · exact hbase hrows
    · exact absurd h (commonDates_ne_nil_of_alignedRows hrows)
  · intro h
    apply hbase
    subst h
    rfl
  · intro h
    apply hbase
    subst h
    simp [alignedRows, innerJoin, pctChange, List.lookup]

/-- Claim C5, counterexample to the claim as stated: two price series
whose date intersection has exactly 1 point (fewer than 2).  The aligned
return series still has one overlapping row, `stats.linregress` is called
on a single observation — which scipy does not reject (its identical-x
`ValueError` requires `len(x) > 1`); the slope is the silent junk `0/0`
(numpy `nan`) — and `calculate_metrics` returns a success triple instead
of failing. -/
theorem c5_one_point_counterexample :
    (commonDates (datesOf sOneCommon) (datesOf mOneCommon)).length = 1 ∧
    (calculate_metrics sOneCommon mOneCommon).isSome = true := by
  constructor
  · decide
  · simp [calculate_metrics, alignedRows, innerJoin, pctChange, sOneCommon,
      mOneCommon, List.lookup, linregressQ, alignedMarketReturns,
      alignedStockReturns]

/-- Witness for `c5_insufficient_data`: two one-point series sharing no
date; the metrics computation fails. -/
theorem c5_insufficient_data_witness :
    commonDates (datesOf [((0 : ℤ), (1 : ℚ))]) (datesOf [((1 : ℤ), (2 : ℚ))]) = [] ∧
    calculate_metrics [((0 : ℤ), (1 : ℚ))] [((1 : ℤ), (2 : ℚ))] = none :=
  ⟨by decide,
    (c5_insufficient_data [((0 : ℤ), (1 : ℚ))] [((1 : ℤ), (2 : ℚ))]).2.1 (by decide)⟩

/-! ### Claim C7 -/

/-- Claim C7 (amended): the aligned return pair produced by
`calculate_metrics` has length equal to the number of dates common to the
two return series — each price series' dates with its first date dropped
— and this equals (size of the price-date intersection) − 1 when the two
series range over identical date sequences; for series over different
date sets the claimed "intersection − 1" formula fails (see the
counterexample).  The strict-chronological hypotheses are the provider
invariant under which these filter-counts are the set cardinalities of
the spec. -/
theorem c7_aligned_length (s m : PriceFrame)
    (_hs : (datesOf s).Chain' (· < ·)) (_hm : (datesOf m).Chain' (· < ·)) :
    (alignedRows s m).length =
      (commonDates (datesOf (pctChange s)) (datesOf (pctChange m))).length ∧
    (datesOf s = datesOf m → 3 ≤ s.length →
      (alignedRows s m).length =
        (commonDates (datesOf s) (datesOf m)).length - 1) := by
  constructor
  · exact innerJoin_length _ _
  · intro hd _
    have h2 : commonDates (datesOf m).tail (datesOf m).tail = (datesOf m).tail :=
      List.filter_eq_self.mpr (fun a ha => by simpa using ha)
    have h3 : commonDates (datesOf m) (datesOf m) = datesOf m :=
      List.filter_eq_self.mpr (fun a ha => by simpa using ha)
    calc (alignedRows s m).length
        = (commonDates (datesOf (pctChange s)) (datesOf (pctChange m))).length :=
          innerJoin_length _ _
      _ = (commonDates (datesOf m).tail (datesOf m).tail).length := by
          rw [datesOf_pctChange, datesOf_pctChange, hd]
      _ = (datesOf m).tail.length := by rw [h2]
      _ = (datesOf m).length - 1 := by simp
      _ = (commonDates (datesOf s) (datesOf m)).length - 1 := by rw [hd, h3]

/-- Claim C7, counterexample to the claim as stated: two 3-point series
over different date sets.  The price-date intersection has 2 points, so
the claim predicts 2 − 1 = 1 aligned returns, but both shared dates
survive into the `pct_change` series of each side and the aligned return
pair has length 2. -/
theorem c7_intersection_counterexample :
    sSparse.length = 3 ∧ mSparse.length = 3 ∧
    (commonDates (datesOf sSparse) (datesOf mSparse)).length = 2 ∧
    (alignedRows sSparse mSparse).length = 2 ∧
    (alignedRows sSparse mSparse).length ≠
      (commonDates (datesOf sSparse) (datesOf mSparse)).length - 1 :=
  ⟨rfl, rfl, by decide, by decide, by decide⟩

/-- Witness for `c7_aligned_length`: two 3-point series over the same
dates 0, 1, 2; the aligned length is the 3-point intersection minus 1. -/
theorem c7_aligned_length_witness :
    (datesOf sDense).Chain' (· < ·) ∧ datesOf sDense = datesOf mDense ∧
    3 ≤ sDense.length ∧
    (alignedRows sDense mDense).length =
      (commonDates (datesOf sDense) (datesOf mDense)).length - 1 :=
  ⟨by simp [sDense, datesOf, List.chain'_cons], by decide, by decide,
    (c7_aligned_length sDense mDense
        (by simp [sDense, datesOf, List.chain'_cons])
        (by simp [mDense, datesOf, List.chain'_cons])).2 (by decide)
      (by decide)⟩

/-! ### Claim C8 -/

/-- The regression/Sharpe input of `FinalBloombergCode.py` is the
simple-return transform of the prices. -/
theorem pctChange_values (s : PriceFrame)
    (hpos : ∀ p ∈ s.map Prod.snd, 0 < p) :
    (pctChange s).map Prod.snd = simpleReturnsSpec (s.map Prod.snd) := by
  induction s with
  | nil => rfl
  | cons a t ih =>
    cases t with
    | nil => rfl
    | cons b u =>
      have ha : (0 : ℚ) < a.2 := hpos a.2 (by simp)
      have ht : ∀ p ∈ (b :: u).map Prod.snd, 0 < p := by
        intro p hp
        exact hpos p (by simp at hp ⊢; tauto)
      have hd : (b.2 - a.2) / a.2 = b.2 / a.2 - 1 := by
        field_simp
      simp only [pctChange, List.tail_cons, List.zipWith_cons_cons,
        List.map_cons, simpleReturnsSpec] at ih ⊢
      rw [hd]
      exact congrArg _ (ih ht)

/-- The regression/Sharpe input of `EventTradesAnalysis.py`
(`np.diff(np.log(prices))`) is the log-return transform of the prices. -/
theorem logReturns_eq_spec (ps : List ℚ) (hpos : ∀ p ∈ ps, 0 < p) :
    logReturns ps = logReturnsSpec ps := by
  induction ps with
  | nil => rfl
  | cons a t ih =>
    cases t with
    | nil => rfl
    | cons b u =>
      have ha : (0 : ℚ) < a := hpos a (by simp)
      have hb : (0 : ℚ) < b := hpos b (by simp)
      have ht : ∀ p ∈ b :: u, 0 < p := by
        intro p hp
        exact hpos p (by simp at hp ⊢; tauto)
      have hd : Real.log ((b / a : ℚ) : ℝ)
          = Real.log (b : ℝ) - Real.log (a : ℝ) := by
        push_cast
        rw [Real.log_div (by exact_mod_cast hb.ne') (by exact_mod_cast ha.ne')]
      simp only [logReturns, npDiff, logReturnsSpec, List.map_cons,
        List.tail_cons, List.zipWith_cons_cons] at ih ⊢
      rw [hd]
      exact congrArg _ (ih ht)

/-- Claim C8 (amended): each pipeline feeds a single return transform to
both its regression and its Sharpe computation — `EventTradesAnalysis.py`
uses log returns `ln(p[i]/p[i-1])` for both (its `stock_returns` array is
reused for the regression, the excess-return numerator and the Sharpe
denominator), while `FinalBloombergCode.py` uses simple returns
`p[i]/p[i-1] - 1` (`pct_change`) for both.  The two transforms genuinely
differ, but differ across the two files rather than between the
regression and Sharpe inputs of one pipeline. -/
theorem c8_return_transforms (s : PriceFrame)
    (hpos : ∀ p ∈ s.map Prod.snd, 0 < p) :
    (pctChange s).map Prod.snd = simpleReturnsSpec (s.map Prod.snd) ∧
    logReturns (s.map Prod.snd) = logReturnsSpec (s.map Prod.snd) ∧
    logReturnsSpec [1, 2] ≠ (simpleReturnsSpec [1, 2]).map (fun q => (q : ℝ)) := by
  refine ⟨pctChange_values s hpos, logReturns_eq_spec _ hpos, ?_⟩
  intro h
  have h2 : Real.log ((2 / 1 : ℚ) : ℝ) = ((2 / 1 - 1 : ℚ) : ℝ) := by
    simpa [logReturnsSpec, simpleReturnsSpec] using h
  norm_num at h2
  have := Real.log_two_lt_d9
  linarith

/-- Claim C8, counterexample to the claim as stated: the return series
fed into the regression of `FinalBloombergCode.py` is `pct_change` — at
prices 1, 2 the return is the simple return 1 — whereas the claim says it
is the log-return transform, which at those prices yields `ln 2 ≠ 1`. -/
theorem c8_log_vs_simple_counterexample :
    (pctChange [((0 : ℤ), (1 : ℚ)), ((1 : ℤ), (2 : ℚ))]).map Prod.snd = [(1 : ℚ)] ∧
    logReturnsSpec [1, 2] ≠ [((1 : ℚ) : ℝ)] := by
  constructor
  · norm_num [pctChange]
  · intro h
    have h2 : Real.log ((2 / 1 : ℚ) : ℝ) = ((1 : ℚ) : ℝ) := by
      simpa [logReturnsSpec] using h
    norm_num at h2
    have := Real.log_two_lt_d9
    linarith

/-- Witness for `c8_return_transforms`: the positive three-point series
`wData`. -/
theorem c8_return_transforms_witness :
    (pctChange wData).map Prod.snd = simpleReturnsSpec (wData.map Prod.snd) ∧
    logReturns (wData.map Prod.snd) = logReturnsSpec (wData.map Prod.snd) := by
  have hpos : ∀ p ∈ wData.map Prod.snd, 0 < p := by
    intro p hp
    simp [wData] at hp
    rcases hp with h | h | h <;> rw [h] <;> norm_num
  exact ⟨(c8_return_transforms wData hpos).1, (c8_return_transforms wData hpos).2.1⟩

/-! ### Claim C9 -/

/-- Claim C9 (amended): the batch loop of `FinalBloombergCode.py` computes
each position's metrics from price series fetched over that position's
event-defined holding window — purchase date through sell date, or today
when the sell date is absent: one loop iteration depends on the provider
only through its two calls at exactly those dates.
`merger_arbitrage_analysis_bloomberg` of `EventTradesAnalysis.py`, by
contrast, depends on the provider only through its calls over the fixed
trailing window `today - 365 .. today`, regardless of the position's
dates (see the counterexample). -/
theorem c9_fetch_window (f g : FBFetch) (fe ge : ETFetch) (today : ℤ)
    (st : BatchState) (ticker : String) (purchase : ℤ) (sellOpt : Option ℤ)
    (target mkt : String) (deal : ℚ) (close : ℤ) :
    ((f ticker purchase (sellOpt.getD today) = g ticker purchase (sellOpt.getD today)) →
      (f "UKX Index" purchase (sellOpt.getD today)
          = g "UKX Index" purchase (sellOpt.getD today)) →
      processPosition f today st (ticker, some purchase, sellOpt)
        = processPosition g today st (ticker, some purchase, sellOpt)) ∧
    ((fe [target] (etFetchStart today) (etFetchEnd today)
          = ge [target] (etFetchStart today) (etFetchEnd today)) →
      (fe [mkt] (etFetchStart today) (etFetchEnd today)
          = ge [mkt] (etFetchStart today) (etFetchEnd today)) →
      merger_arbitrage_analysis_bloomberg fe today target deal close mkt
        = merger_arbitrage_analysis_bloomberg ge today target deal close mkt) := by
  constructor
  · intro h1 h2
    simp only [processPosition, h1, h2]
  · intro h1 h2
    simp only [merger_arbitrage_analysis_bloomberg, h1, h2]

/-- Claim C9, counterexample to the claim as stated: a position whose
holding window is day 900 (buy) to day 990 (expected close), analysed on
day 1000.  The two provider stubs agree on every call over that window
(start date 900), yet the analysis results differ — because the code
actually fetches over the fixed trailing window `etFetchStart 1000 = 635`
to `etFetchEnd 1000 = 1000`, not over the position's own window. -/
theorem c9_fixed_window_counterexample :
    etFetchKey ["TGT US Equity"] 900 990 = etFetchVal ["TGT US Equity"] 900 990 ∧
    etFetchKey ["SPX Index"] 900 990 = etFetchVal ["SPX Index"] 900 990 ∧
    merger_arbitrage_analysis_bloomberg etFetchKey 1000 "TGT US Equity" 100 990
      "SPX Index" = .error .keyError ∧
    merger_arbitrage_analysis_bloomberg etFetchVal 1000 "TGT US Equity" 100 990
      "SPX Index" = .error .valueError ∧
    merger_arbitrage_analysis_bloomberg etFetchKey 1000 "TGT US Equity" 100 990
        "SPX Index"
      ≠ merger_arbitrage_analysis_bloomberg etFetchVal 1000 "TGT US Equity" 100 990
        "SPX Index" := by
  refine ⟨rfl, rfl, rfl, rfl, ?_⟩
  intro h
  have h1 : merger_arbitrage_analysis_bloomberg etFetchKey 1000 "TGT US Equity"
      100 990 "SPX Index" = .error .keyError := rfl
  have h2 : merger_arbitrage_analysis_bloomberg etFetchVal 1000 "TGT US Equity"
      100 990 "SPX Index" = .error .valueError := rfl
  rw [h1, h2] at h
  simp at h

/-- Witness for `c9_fetch_window`: concrete provider pairs that agree on
the respective windows; both pipeline results coincide accordingly. -/
theorem c9_fetch_window_witness :
    processPosition fbFetchNoneA 7 initialBatchState ("AAA US Equity", some 3, none)
      = processPosition fbFetchNoneB 7 initialBatchState ("AAA US Equity", some 3, none) ∧
    merger_arbitrage_analysis_bloomberg etFetchKey 1000 "TGT US Equity" 100 990
        "SPX Index"
      = merger_arbitrage_analysis_bloomberg etFetchKeyB 1000 "TGT US Equity" 100 990
        "SPX Index" :=
  ⟨(c9_fetch_window fbFetchNoneA fbFetchNoneB etFetchKey etFetchKeyB 7
      initialBatchState "AAA US Equity" 3 none "TGT US Equity" "SPX Index"
      100 990).1 rfl rfl,
    (c9_fetch_window fbFetchNoneA fbFetchNoneB etFetchKey etFetchKeyB 1000
      initialBatchState "AAA US Equity" 3 none "TGT US Equity" "SPX Index"
      100 990).2 rfl rfl⟩

/-! ### Claim C3 -/

/-- Claim C3: the code contradicts the specified behaviour.  For a deal
closing in the past (`days_to_close = -1`) with a positive spread, the
spread analysis of `EventTradesAnalysis.py` does not fail with any
`ClosedOrPastDealError` (no such error exists anywhere in the code): it
silently returns the meaningless negative annualised return `-3650`; and
for `days_to_close = 0` it raises an unhandled `ZeroDivisionError`
instead. -/
theorem c3_past_deal_no_error :
    arbitrageSpread 100 90 = 10 ∧
    annualizedReturnCalc (arbitrageSpread 100 90) (-1) = .ok (some (-3650)) ∧
    ((-3650 : ℚ) < 0) ∧
    annualizedReturnCalc (arbitrageSpread 100 90) 0 = .error .zeroDivisionError := by
  refine ⟨by norm_num [arbitrageSpread], ?_, by norm_num, ?_⟩
  · norm_num [annualizedReturnCalc, arbitrageSpread]
  · norm_num [annualizedReturnCalc, arbitrageSpread]

/-! ### Claim C4 -/

/-- Claim C4: the code contradicts the specified behaviour.  For a flat
subject price series (constant prices, hence zero-variance returns and a
zero Sharpe denominator `np.std(excess_returns)`), `calculate_metrics` of
`FinalBloombergCode.py` does not fail with any `DegenerateVarianceError`
(no such error exists in the code): numpy evaluates `mean/0` to a silent
`inf` with only a RuntimeWarning, the function returns a success triple,
and the batch loop even counts the position as processed, folding the
junk Sharpe value into the portfolio accumulators.
(`calculate_alpha_beta_sharpe` of `EventTradesAnalysis.py` divides by
`np.std(stock_returns)` with no check either.) -/
theorem c4_degenerate_variance_silent :
    npVarQ (excessReturnsFB sFlat mVaried) = 0 ∧
    (calculate_metrics sFlat mVaried).isSome = true ∧
    (runBatch fetchFlat 0 [("CONST US Equity", some 0, some 3)]).numProcessed = 1 := by
  have hsome : (calculate_metrics sFlat mVaried).isSome = true := by
    simp [calculate_metrics, alignedRows, innerJoin, pctChange, sFlat,
      mVaried, List.lookup, linregressQ, allSameQ, alignedMarketReturns,
      alignedStockReturns]
    norm_num
  refine ⟨?_, hsome, ?_⟩
  · simp [npVarQ, npMeanQ, excessReturnsFB, alignedStockReturns, alignedRows,
      innerJoin, pctChange, sFlat, mVaried, List.lookup]
    norm_num
  · obtain ⟨t, ht⟩ := Option.isSome_iff_exists.mp hsome
    simp [runBatch, processPosition, fetchFlat, ht, initialBatchState,
      show sFlat ≠ [] by simp [sFlat], show mVaried ≠ [] by simp [mVaried]]

/-! ### Claim C6 -/

/-- Claim C6 (amended): for dealPrice > 0 the spread analysis returns
`spreadPct = (dealPrice - currentPrice)/dealPrice * 100`; when
`spreadPct > 0` and `daysToClose > 0` it returns
`annualizedReturn = spreadPct/daysToClose * 365`; when `spreadPct ≤ 0`
the `annualizedReturn` field is `None` (absent), not zero and not a junk
number.  For dealPrice = 100, currentPrice = 90 and 73 days to close this
gives `spreadPct = 10` and `annualizedReturn = 50` (the division is by
the deal price, so the 11.11/55.56 figures of the claim are wrong: see
the counterexample). -/
theorem c6_spread_analysis (deal current : ℚ) (days : ℤ) (_hdeal : 0 < deal) :
    arbitrageSpread deal current = (deal - current) / deal * 100 ∧
    (0 < arbitrageSpread deal current → 0 < days →
      annualizedReturnCalc (arbitrageSpread deal current) days =
        .ok (some (arbitrageSpread deal current / (days : ℚ) * 365))) ∧
    (arbitrageSpread deal current ≤ 0 →
      annualizedReturnCalc (arbitrageSpread deal current) days = .ok none) ∧
    arbitrageSpread 100 90 = 10 ∧
    annualizedReturnCalc (arbitrageSpread 100 90) 73 = .ok (some 50) := by
  refine ⟨rfl, ?_, ?_, by norm_num [arbitrageSpread], by
    norm_num [annualizedReturnCalc, arbitrageSpread]⟩
  · intro hpos hdays
    rw [annualizedReturnCalc.eq_def, if_pos hpos, if_neg (by omega)]
  · intro hle
    rw [annualizedReturnCalc.eq_def, if_neg (not_lt.mpr hle)]

/-- Claim C6, counterexample to the claim as stated: at dealPrice = 100,
currentPrice = 90 the code's spread is `(100-90)/100*100 = 10`, not
`≈ 11.11` (that figure would require dividing by the current price), and
over 73 days the annualised return is 50, not `≈ 55.56`. -/
theorem c6_example_counterexample :
    arbitrageSpread 100 90 = 10 ∧
    ¬ (|arbitrageSpread 100 90 - 1111 / 100| ≤ 1 / 2) ∧
    annualizedReturnCalc (arbitrageSpread 100 90) 73 = .ok (some 50) ∧
    ¬ (|(50 : ℚ) - 5556 / 100| ≤ 1 / 2) := by
  have h : arbitrageSpread 100 90 = 10 := by norm_num [arbitrageSpread]
  refine ⟨h, ?_, by norm_num [annualizedReturnCalc, arbitrageSpread], ?_⟩
  · rw [h, show (10 : ℚ) - 1111 / 100 = -(111 / 100) by norm_num, abs_neg,
      abs_of_nonneg (by norm_num)]
    norm_num
  · rw [show (50 : ℚ) - 5556 / 100 = -(556 / 100) by norm_num, abs_neg,
      abs_of_nonneg (by norm_num)]
    norm_num

/-- Witness for `c6_spread_analysis`: the concrete 100/90/73-day deal. -/
theorem c6_spread_analysis_witness :
    arbitrageSpread 100 90 = (100 - 90) / 100 * 100 ∧
    annualizedReturnCalc (arbitrageSpread 100 90) 73 =
      .ok (some (arbitrageSpread 100 90 / ((73 : ℤ) : ℚ) * 365)) ∧
    annualizedReturnCalc (arbitrageSpread 100 90) 73 = .ok (some 50) :=
  ⟨(c6_spread_analysis 100 90 73 (by norm_num)).1,
    (c6_spread_analysis 100 90 73 (by norm_num)).2.1
      (by norm_num [arbitrageSpread]) (by norm_num),
    (c6_spread_analysis 100 90 73 (by norm_num)).2.2.2.2⟩

end VarCapital
